import Mathlib

/-!
# Water quality monitoring: classification and worst-case reduction

A shallow embedding of the classification logic of
`water_quality_monitor.c` (host simulation), `water_quality_monitor_embedded.c`
(AVR variant) and the threshold table `water_quality_config.h`.

Modelling conventions.

* A reading is a C `float`.  Every finite `float` is a rational number, the
  comparisons of the source promote it to `double` (exactly) and every
  threshold of the header (6.5, 8.5, 6.0, 9.0, 15.0, ...) is exactly
  representable in binary, so each comparison of the source is the exact
  comparison of two numbers.  The definitions are therefore written over an
  arbitrary linearly ordered field `α`: they run at `α := ℚ` and the theorems
  hold at `α := ℝ` as well.  NaN and the infinities are not modelled.
* A C `int` quality level is an `Int`; only the values 0, 1, 2 are ever stored
  by the classification, so no overflow can occur.
* `printf` / `uart_print_string` output is the list of the strings written, in
  order.
* The arithmetic of the simulated sensor `read_temperature_sensor` is not exact:
  it is modelled on `ℚ` with the IEEE 754 rounding (to nearest, ties to even) of
  every conversion and operation, to binary32 for `float` and to binary64 for
  `double`.
-/

namespace WaterQuality

/-! ## water_quality_config.h -/

/-- Header line 15: `#define QUALITY_GOOD 0`. -/
def QUALITY_GOOD : Int := 0
/-- Header line 16: `#define QUALITY_ALERT 1`. -/
def QUALITY_ALERT : Int := 1
/-- Header line 17: `#define QUALITY_CRITICAL 2`. -/
def QUALITY_CRITICAL : Int := 2

section Thresholds
variable {α : Type} [LinearOrderedField α]

/-- Header line 20: `#define PH_GOOD_MIN 6.5`. -/
def PH_GOOD_MIN : α := 6.5
/-- Header line 21: `#define PH_GOOD_MAX 8.5`. -/
def PH_GOOD_MAX : α := 8.5
/-- Header line 22: `#define PH_ALERT_MIN 6.0`. -/
def PH_ALERT_MIN : α := 6.0
/-- Header line 23: `#define PH_ALERT_MAX 9.0`. -/
def PH_ALERT_MAX : α := 9.0
/-- Header line 27: `#define TEMP_GOOD_MIN 15.0`. -/
def TEMP_GOOD_MIN : α := 15.0
/-- Header line 28: `#define TEMP_GOOD_MAX 25.0`. -/
def TEMP_GOOD_MAX : α := 25.0
/-- Header line 29: `#define TEMP_ALERT_MIN 10.0`. -/
def TEMP_ALERT_MIN : α := 10.0
/-- Header line 30: `#define TEMP_ALERT_MAX 30.0`. -/
def TEMP_ALERT_MAX : α := 30.0
/-- Header line 34: `#define TURBIDITY_GOOD 5.0`. -/
def TURBIDITY_GOOD : α := 5.0
/-- Header line 35: `#define TURBIDITY_ALERT 10.0`. -/
def TURBIDITY_ALERT : α := 10.0
/-- Header line 39: `#define TDS_GOOD 300.0`. -/
def TDS_GOOD : α := 300.0
/-- Header line 40: `#define TDS_ALERT 500.0`. -/
def TDS_ALERT : α := 500.0
/-- Header line 44: `#define DO_GOOD 6.0`. -/
def DO_GOOD : α := 6.0
/-- Header line 45: `#define DO_ALERT 4.0`. -/
def DO_ALERT : α := 4.0

end Thresholds

/-! ## Floating-point arithmetic of the host -/

/-- Nearest integer of a non-negative rational, a tie going to the even
neighbour. -/
def round_half_even (y : ℚ) : Int :=
  let f := ⌊y⌋
  if y - f < 1 / 2 then f
  else if 1 / 2 < y - f then f + 1
  else if f % 2 = 0 then f else f + 1

/-- IEEE 754 rounding to nearest, ties to even, into the binary format with `p`
significant bits: the magnitude is rounded to a multiple of the unit in the last
place of its binade and the sign is kept.  The exponent range is not modelled
(no overflow to infinity, no subnormal numbers); every value rounded by
`read_temperature_sensor` is 0 or has magnitude between `2 ^ (-31)` and `2 ^ 31`
when `RAND_MAX` fits a 32-bit `int`, far inside both formats. -/
def round_nearest_even (p : Nat) (x : ℚ) : ℚ :=
  if x = 0 then 0
  else
    let e : Int := Int.log 2 |x|
    let ulp : ℚ := 2 ^ (e - ((p : Int) - 1))
    let m : Int := round_half_even (|x| / ulp)
    if x < 0 then -((m : ℚ) * ulp) else (m : ℚ) * ulp

/-- Rounding to `float` (binary32, 24 significant bits). -/
def to_float (x : ℚ) : ℚ := round_nearest_even 24 x

/-- Rounding to `double` (binary64, 53 significant bits). -/
def to_double (x : ℚ) : ℚ := round_nearest_even 53 x

/-! ## water_quality_monitor.c (host simulation) -/

namespace Host

/-- Source lines 197-208: the `switch` of `get_quality_category`. -/
def get_quality_category (quality_level : Int) : String :=
  if quality_level = QUALITY_GOOD then "Good"
  else if quality_level = QUALITY_ALERT then "Alert"
  else if quality_level = QUALITY_CRITICAL then "Critical"
  else "Unknown"

/-- Source lines 181-185: the worst-case reduction of `analyze_water_quality`,
as a function of the five per-parameter quality levels. -/
def overall_reduction
    (ph_quality temp_quality turbidity_quality tds_quality do_quality : Int) : Int :=
  let overall_quality := ph_quality
  let overall_quality :=
    if temp_quality > overall_quality then temp_quality else overall_quality
  let overall_quality :=
    if turbidity_quality > overall_quality then turbidity_quality else overall_quality
  let overall_quality :=
    if tds_quality > overall_quality then tds_quality else overall_quality
  let overall_quality :=
    if do_quality > overall_quality then do_quality else overall_quality
  overall_quality

/-- What one call of `analyze_water_quality` computes: the five local
quality levels, the overall level, the value returned by each of the six calls
of `get_quality_category` (in call order) and the text written. -/
structure Analysis where
  ph_quality : Int
  temp_quality : Int
  turbidity_quality : Int
  tds_quality : Int
  do_quality : Int
  overall_quality : Int
  labels : List String
  output : List String

/-- Source lines 119-195: `analyze_water_quality`. -/
def analyze_water_quality {α : Type} [LinearOrderedField α]
    (ph temperature turbidity tds dissolved_oxygen : α) : Analysis :=
  -- Analyze pH
  let ph_quality : Int :=
    if ph ≥ PH_GOOD_MIN ∧ ph ≤ PH_GOOD_MAX then QUALITY_GOOD
    else if (ph ≥ PH_ALERT_MIN ∧ ph < PH_GOOD_MIN) ∨ (ph > PH_GOOD_MAX ∧ ph ≤ PH_ALERT_MAX) then
      QUALITY_ALERT
    else QUALITY_CRITICAL
  -- Analyze temperature
  let temp_quality : Int :=
    if temperature ≥ TEMP_GOOD_MIN ∧ temperature ≤ TEMP_GOOD_MAX then QUALITY_GOOD
    else if (temperature ≥ TEMP_ALERT_MIN ∧ temperature < TEMP_GOOD_MIN) ∨
        (temperature > TEMP_GOOD_MAX ∧ temperature ≤ TEMP_ALERT_MAX) then
      QUALITY_ALERT
    else QUALITY_CRITICAL
  -- Analyze turbidity
  let turbidity_quality : Int :=
    if turbidity ≤ TURBIDITY_GOOD then QUALITY_GOOD
    else if turbidity ≤ TURBIDITY_ALERT then QUALITY_ALERT
    else QUALITY_CRITICAL
  -- Analyze TDS
  let tds_quality : Int :=
    if tds ≤ TDS_GOOD then QUALITY_GOOD
    else if tds ≤ TDS_ALERT then QUALITY_ALERT
    else QUALITY_CRITICAL
  -- Analyze dissolved oxygen
  let do_quality : Int :=
    if dissolved_oxygen ≥ DO_GOOD then QUALITY_GOOD
    else if dissolved_oxygen ≥ DO_ALERT then QUALITY_ALERT
    else QUALITY_CRITICAL
  -- Display quality analysis
  let l_ph := get_quality_category ph_quality
  let l_temp := get_quality_category temp_quality
  let l_turbidity := get_quality_category turbidity_quality
  let l_tds := get_quality_category tds_quality
  let l_do := get_quality_category do_quality
  let out : List String :=
    ["Water Quality Analysis:\n",
     "pH: " ++ l_ph ++ "\n",
     "Temperature: " ++ l_temp ++ "\n",
     "Turbidity: " ++ l_turbidity ++ "\n",
     "TDS: " ++ l_tds ++ "\n",
     "Dissolved Oxygen: " ++ l_do ++ "\n"]
  -- Determine overall water quality (worst case)
  let overall_quality :=
    overall_reduction ph_quality temp_quality turbidity_quality tds_quality do_quality
  let l_overall := get_quality_category overall_quality
  let out := out ++ ["\nOVERALL WATER QUALITY: " ++ l_overall ++ "\n"]
  -- Trigger alert if necessary
  let out :=
    if overall_quality = QUALITY_ALERT then
      out ++ ["⚠️ ALERT: Water quality requires attention!\n"]
    else if overall_quality = QUALITY_CRITICAL then
      out ++ ["🚨 CRITICAL: Immediate action required! Water quality is unsafe!\n"]
    else out
  { ph_quality := ph_quality
    temp_quality := temp_quality
    turbidity_quality := turbidity_quality
    tds_quality := tds_quality
    do_quality := do_quality
    overall_quality := overall_quality
    labels := [l_ph, l_temp, l_turbidity, l_tds, l_do, l_overall]
    output := out }

/-- Source lines 73-80: `read_temperature_sensor`.  The value returned by the
call of `rand()` and the constant `RAND_MAX` of `stdlib.h` (implementation
defined, at least 32767) are the two arguments.  Every rounding step of the C
evaluation is written out: `(float)rand()` and the conversion of `RAND_MAX`
round to `float`, the division is a `float` division, the operations with the
`double` literals 2.0, 1.0, 5.0 are `double` operations, the store into
`variation` rounds to `float` and the returned sum is a `float` addition. -/
def read_temperature_sensor (rand RAND_MAX : Int) : ℚ :=
  let base_temp : ℚ := to_float 20.0
  let variation : ℚ :=
    to_float (to_double (to_double (to_double
      (to_float (to_float (rand : ℚ) / to_float (RAND_MAX : ℚ)) * 2.0) - 1.0) * 5.0))
  to_float (base_temp + variation)

end Host

/-! ## water_quality_monitor_embedded.c (AVR variant) -/

namespace Embedded

/-- Source line 24: `#define RED_LED_PIN 9`. -/
def RED_LED_PIN : Nat := 9
/-- Source line 25: `#define YELLOW_LED_PIN 10`. -/
def YELLOW_LED_PIN : Nat := 10
/-- Source line 26: `#define GREEN_LED_PIN 11`. -/
def GREEN_LED_PIN : Nat := 11

/-- Width of `int` on the AVR target (avr-gcc): 16 bits.  The masks
`1 << 9`, `1 << 10`, `1 << 11` and their union 3584 fit without overflow. -/
def INT_BITS : Nat := 16

/-- Width of the I/O register `PORTB`, which `avr/io.h` declares as a
`volatile uint8_t`: 8 bits.  A store to it keeps the value modulo `2 ^ 8`. -/
def PORT_BITS : Nat := 8

/-- Source lines 310-321: the `switch` of `get_quality_category`. -/
def get_quality_category (quality_level : Int) : String :=
  if quality_level = QUALITY_GOOD then "Good"
  else if quality_level = QUALITY_ALERT then "Alert"
  else if quality_level = QUALITY_CRITICAL then "Critical"
  else "Unknown"

/-- Source lines 323-339: `set_alert_leds`, as a function from the value of
`PORTB` before the call to its value after the call.

`PORTB &= ~m` promotes the register value to `int`, takes the bitwise and with
the complement of `m` (bit pattern `2 ^ INT_BITS - 1 - m`) and stores the result
back into the 8-bit register; `PORTB |= m` likewise with the bitwise or.  The
`switch` has no `default`: any other level leaves the register as it is after
the first statement. -/
def set_alert_leds (PORTB : Nat) (quality_level : Int) : Nat :=
  -- Turn off all LEDs first
  let PORTB :=
    (PORTB &&& (2 ^ INT_BITS - 1 -
      ((1 <<< RED_LED_PIN) ||| (1 <<< YELLOW_LED_PIN) ||| (1 <<< GREEN_LED_PIN))))
      % 2 ^ PORT_BITS
  -- Turn on the appropriate LED based on quality level
  if quality_level = QUALITY_GOOD then (PORTB ||| (1 <<< GREEN_LED_PIN)) % 2 ^ PORT_BITS
  else if quality_level = QUALITY_ALERT then (PORTB ||| (1 <<< YELLOW_LED_PIN)) % 2 ^ PORT_BITS
  else if quality_level = QUALITY_CRITICAL then (PORTB ||| (1 <<< RED_LED_PIN)) % 2 ^ PORT_BITS
  else PORTB

/-- Source lines 289-293: the worst-case reduction of `analyze_water_quality`,
as a function of the five per-parameter quality levels. -/
def overall_reduction
    (ph_quality temp_quality turbidity_quality tds_quality do_quality : Int) : Int :=
  let overall_quality := ph_quality
  let overall_quality :=
    if temp_quality > overall_quality then temp_quality else overall_quality
  let overall_quality :=
    if turbidity_quality > overall_quality then turbidity_quality else overall_quality
  let overall_quality :=
    if tds_quality > overall_quality then tds_quality else overall_quality
  let overall_quality :=
    if do_quality > overall_quality then do_quality else overall_quality
  overall_quality

/-- What one call of the embedded `analyze_water_quality` computes: the five
local quality levels, the overall level, the value returned by each of the six
calls of `get_quality_category` (in call order), the strings passed to
`uart_print_string` and the value of `PORTB` after the call. -/
structure Analysis where
  ph_quality : Int
  temp_quality : Int
  turbidity_quality : Int
  tds_quality : Int
  do_quality : Int
  overall_quality : Int
  labels : List String
  output : List String
  PORTB : Nat

/-- Source lines 212-308: `analyze_water_quality`; the first argument is the
value of `PORTB` when the function is entered. -/
def analyze_water_quality {α : Type} [LinearOrderedField α] (PORTB : Nat)
    (ph temperature turbidity tds dissolved_oxygen : α) : Analysis :=
  -- Analyze pH
  let ph_quality : Int :=
    if ph ≥ PH_GOOD_MIN ∧ ph ≤ PH_GOOD_MAX then QUALITY_GOOD
    else if (ph ≥ PH_ALERT_MIN ∧ ph < PH_GOOD_MIN) ∨ (ph > PH_GOOD_MAX ∧ ph ≤ PH_ALERT_MAX) then
      QUALITY_ALERT
    else QUALITY_CRITICAL
  -- Analyze temperature
  let temp_quality : Int :=
    if temperature ≥ TEMP_GOOD_MIN ∧ temperature ≤ TEMP_GOOD_MAX then QUALITY_GOOD
    else if (temperature ≥ TEMP_ALERT_MIN ∧ temperature < TEMP_GOOD_MIN) ∨
        (temperature > TEMP_GOOD_MAX ∧ temperature ≤ TEMP_ALERT_MAX) then
      QUALITY_ALERT
    else QUALITY_CRITICAL
  -- Analyze turbidity
  let turbidity_quality : Int :=
    if turbidity ≤ TURBIDITY_GOOD then QUALITY_GOOD
    else if turbidity ≤ TURBIDITY_ALERT then QUALITY_ALERT
    else QUALITY_CRITICAL
  -- Analyze TDS
  let tds_quality : Int :=
    if tds ≤ TDS_GOOD then QUALITY_GOOD
    else if tds ≤ TDS_ALERT then QUALITY_ALERT
    else QUALITY_CRITICAL
  -- Analyze dissolved oxygen
  let do_quality : Int :=
    if dissolved_oxygen ≥ DO_GOOD then QUALITY_GOOD
    else if dissolved_oxygen ≥ DO_ALERT then QUALITY_ALERT
    else QUALITY_CRITICAL
  -- Display quality analysis
  let l_ph := get_quality_category ph_quality
  let l_temp := get_quality_category temp_quality
  let l_turbidity := get_quality_category turbidity_quality
  let l_tds := get_quality_category tds_quality
  let l_do := get_quality_category do_quality
  let out : List String :=
    ["Water Quality Analysis:\n",
     "pH: ", l_ph, "\n",
     "Temperature: ", l_temp, "\n",
     "Turbidity: ", l_turbidity, "\n",
     "TDS: ", l_tds, "\n",
     "Dissolved Oxygen: ", l_do, "\n"]
  -- Determine overall water quality (worst case)
  let overall_quality :=
    overall_reduction ph_quality temp_quality turbidity_quality tds_quality do_quality
  let l_overall := get_quality_category overall_quality
  let out := out ++ ["\nOVERALL WATER QUALITY: ", l_overall, "\n"]
  -- Set LEDs based on water quality
  let PORTB := set_alert_leds PORTB overall_quality
  -- Trigger alert if necessary
  let out :=
    if overall_quality = QUALITY_ALERT then
      out ++ ["ALERT: Water quality requires attention!\n"]
    else if overall_quality = QUALITY_CRITICAL then
      out ++ ["CRITICAL: Immediate action required! Water quality is unsafe!\n"]
    else out
  { ph_quality := ph_quality
    temp_quality := temp_quality
    turbidity_quality := turbidity_quality
    tds_quality := tds_quality
    do_quality := do_quality
    overall_quality := overall_quality
    labels := [l_ph, l_temp, l_turbidity, l_tds, l_do, l_overall]
    output := out
    PORTB := PORTB }

end Embedded

/-! ## Projections of the host analysis -/

section HostProjections
variable {α : Type} [LinearOrderedField α]

theorem Host.ph_quality_eq (ph temperature turbidity tds dissolved_oxygen : α) :
    (Host.analyze_water_quality ph temperature turbidity tds dissolved_oxygen).ph_quality =
      if ph ≥ PH_GOOD_MIN ∧ ph ≤ PH_GOOD_MAX then QUALITY_GOOD
      else if (ph ≥ PH_ALERT_MIN ∧ ph < PH_GOOD_MIN) ∨ (ph > PH_GOOD_MAX ∧ ph ≤ PH_ALERT_MAX) then
        QUALITY_ALERT
      else QUALITY_CRITICAL := rfl

theorem Host.temp_quality_eq (ph temperature turbidity tds dissolved_oxygen : α) :
    (Host.analyze_water_quality ph temperature turbidity tds dissolved_oxygen).temp_quality =
      if temperature ≥ TEMP_GOOD_MIN ∧ temperature ≤ TEMP_GOOD_MAX then QUALITY_GOOD
      else if (temperature ≥ TEMP_ALERT_MIN ∧ temperature < TEMP_GOOD_MIN) ∨
          (temperature > TEMP_GOOD_MAX ∧ temperature ≤ TEMP_ALERT_MAX) then
        QUALITY_ALERT
      else QUALITY_CRITICAL := rfl

theorem Host.turbidity_quality_eq (ph temperature turbidity tds dissolved_oxygen : α) :
    (Host.analyze_water_quality ph temperature turbidity tds dissolved_oxygen).turbidity_quality =
      if turbidity ≤ TURBIDITY_GOOD then QUALITY_GOOD
      else if turbidity ≤ TURBIDITY_ALERT then QUALITY_ALERT
      else QUALITY_CRITICAL := rfl

theorem Host.tds_quality_eq (ph temperature turbidity tds dissolved_oxygen : α) :
    (Host.analyze_water_quality ph temperature turbidity tds dissolved_oxygen).tds_quality =
      if tds ≤ TDS_GOOD then QUALITY_GOOD
      else if tds ≤ TDS_ALERT then QUALITY_ALERT
      else QUALITY_CRITICAL := rfl

theorem Host.do_quality_eq (ph temperature turbidity tds dissolved_oxygen : α) :
    (Host.analyze_water_quality ph temperature turbidity tds dissolved_oxygen).do_quality =
      if dissolved_oxygen ≥ DO_GOOD then QUALITY_GOOD
      else if dissolved_oxygen ≥ DO_ALERT then QUALITY_ALERT
      else QUALITY_CRITICAL := rfl

theorem Host.overall_quality_eq (ph temperature turbidity tds dissolved_oxygen : α) :
    (Host.analyze_water_quality ph temperature turbidity tds dissolved_oxygen).overall_quality =
      Host.overall_reduction
        (Host.analyze_water_quality ph temperature turbidity tds dissolved_oxygen).ph_quality
        (Host.analyze_water_quality ph temperature turbidity tds dissolved_oxygen).temp_quality
        (Host.analyze_water_quality ph temperature turbidity tds dissolved_oxygen).turbidity_quality
        (Host.analyze_water_quality ph temperature turbidity tds dissolved_oxygen).tds_quality
        (Host.analyze_water_quality ph temperature turbidity tds dissolved_oxygen).do_quality := rfl

theorem Host.labels_eq (ph temperature turbidity tds dissolved_oxygen : α) :
    (Host.analyze_water_quality ph temperature turbidity tds dissolved_oxygen).labels =
      [Host.get_quality_category
         (Host.analyze_water_quality ph temperature turbidity tds dissolved_oxygen).ph_quality,
       Host.get_quality_category
         (Host.analyze_water_quality ph temperature turbidity tds dissolved_oxygen).temp_quality,
       Host.get_quality_category
         (Host.analyze_water_quality ph temperature turbidity tds dissolved_oxygen).turbidity_quality,
       Host.get_quality_category
         (Host.analyze_water_quality ph temperature turbidity tds dissolved_oxygen).tds_quality,
       Host.get_quality_category
         (Host.analyze_water_quality ph temperature turbidity tds dissolved_oxygen).do_quality,
       Host.get_quality_category
         (Host.analyze_water_quality ph temperature turbidity tds dissolved_oxygen).overall_quality] :=
  rfl

end HostProjections

/-! ## The three shapes of threshold test -/

section Shapes
variable {α : Type} [LinearOrderedField α]

theorem band_levels (v amin gmin gmax amax : α) (h1 : amin ≤ gmin) (h2 : gmin ≤ gmax)
    (h3 : gmax ≤ amax) (c : Int)
    (hc : c = if v ≥ gmin ∧ v ≤ gmax then QUALITY_GOOD
      else if (v ≥ amin ∧ v < gmin) ∨ (v > gmax ∧ v ≤ amax) then QUALITY_ALERT
      else QUALITY_CRITICAL) :
    (c = QUALITY_GOOD ↔ gmin ≤ v ∧ v ≤ gmax) ∧
    (c = QUALITY_ALERT ↔ (amin ≤ v ∧ v < gmin) ∨ (gmax < v ∧ v ≤ amax)) ∧
    (c = QUALITY_ALERT ↔ (amin ≤ v ∧ v ≤ amax) ∧ ¬ (gmin ≤ v ∧ v ≤ gmax)) ∧
    (c = QUALITY_CRITICAL ↔
      ¬ (gmin ≤ v ∧ v ≤ gmax) ∧ ¬ ((amin ≤ v ∧ v < gmin) ∨ (gmax < v ∧ v ≤ amax))) := by
  subst hc
  simp only [ge_iff_le, gt_iff_lt, ← not_le]
  by_cases a1 : amin ≤ v <;> by_cases a2 : gmin ≤ v <;> by_cases a3 : v ≤ gmax <;>
    by_cases a4 : v ≤ amax <;>
    simp [a1, a2, a3, a4, QUALITY_GOOD, QUALITY_ALERT, QUALITY_CRITICAL] <;>
    linarith

theorem upper_levels (v g a : α) (h : g ≤ a) (c : Int)
    (hc : c = if v ≤ g then QUALITY_GOOD else if v ≤ a then QUALITY_ALERT
      else QUALITY_CRITICAL) :
    (c = QUALITY_GOOD ↔ v ≤ g) ∧ (c = QUALITY_ALERT ↔ g < v ∧ v ≤ a) ∧
      (c = QUALITY_CRITICAL ↔ v > a) := by
  subst hc
  simp only [gt_iff_lt, ← not_le]
  by_cases a1 : v ≤ g <;> by_cases a2 : v ≤ a
  all_goals simp [a1, a2, QUALITY_GOOD, QUALITY_ALERT, QUALITY_CRITICAL]
  all_goals linarith

theorem lower_levels (v g a : α) (h : a ≤ g) (c : Int)
    (hc : c = if v ≥ g then QUALITY_GOOD else if v ≥ a then QUALITY_ALERT
      else QUALITY_CRITICAL) :
    (c = QUALITY_GOOD ↔ v ≥ g) ∧ (c = QUALITY_ALERT ↔ a ≤ v ∧ v < g) ∧
      (c = QUALITY_CRITICAL ↔ v < a) := by
  subst hc
  simp only [ge_iff_le, ← not_le]
  by_cases a1 : g ≤ v <;> by_cases a2 : a ≤ v
  all_goals simp [a1, a2, QUALITY_GOOD, QUALITY_ALERT, QUALITY_CRITICAL]
  all_goals linarith

end Shapes

/-! ## Per-parameter classification -/

section Classification
variable {α : Type} [LinearOrderedField α]

/-- C1. Band parameters of `analyze_water_quality`: the pH level is Good iff
`6.5 ≤ ph ≤ 8.5`, Alert iff `6.0 ≤ ph < 6.5` or `8.5 < ph ≤ 9.0` (equivalently: inside
the alert range `[6.0, 9.0]` and outside the good range), Critical otherwise; the
temperature level likewise with good range `[15.0, 25.0]` and alert range
`[10.0, 30.0]`; the four good-range end points classify Good. -/
theorem c1_band_classification (ph temperature turbidity tds dissolved_oxygen : α) :
    (((Host.analyze_water_quality ph temperature turbidity tds dissolved_oxygen).ph_quality
          = QUALITY_GOOD ↔ 6.5 ≤ ph ∧ ph ≤ 8.5) ∧
      ((Host.analyze_water_quality ph temperature turbidity tds dissolved_oxygen).ph_quality
          = QUALITY_ALERT ↔ (6.0 ≤ ph ∧ ph < 6.5) ∨ (8.5 < ph ∧ ph ≤ 9.0)) ∧
      ((Host.analyze_water_quality ph temperature turbidity tds dissolved_oxygen).ph_quality
          = QUALITY_ALERT ↔ (6.0 ≤ ph ∧ ph ≤ 9.0) ∧ ¬ (6.5 ≤ ph ∧ ph ≤ 8.5)) ∧
      ((Host.analyze_water_quality ph temperature turbidity tds dissolved_oxygen).ph_quality
          = QUALITY_CRITICAL ↔
            ¬ (6.5 ≤ ph ∧ ph ≤ 8.5) ∧ ¬ ((6.0 ≤ ph ∧ ph < 6.5) ∨ (8.5 < ph ∧ ph ≤ 9.0)))) ∧
    (((Host.analyze_water_quality ph temperature turbidity tds dissolved_oxygen).temp_quality
          = QUALITY_GOOD ↔ 15.0 ≤ temperature ∧ temperature ≤ 25.0) ∧
      ((Host.analyze_water_quality ph temperature turbidity tds dissolved_oxygen).temp_quality
          = QUALITY_ALERT ↔
            (10.0 ≤ temperature ∧ temperature < 15.0) ∨ (25.0 < temperature ∧ temperature ≤ 30.0)) ∧
      ((Host.analyze_water_quality ph temperature turbidity tds dissolved_oxygen).temp_quality
          = QUALITY_ALERT ↔
            (10.0 ≤ temperature ∧ temperature ≤ 30.0) ∧ ¬ (15.0 ≤ temperature ∧ temperature ≤ 25.0)) ∧
      ((Host.analyze_water_quality ph temperature turbidity tds dissolved_oxygen).temp_quality
          = QUALITY_CRITICAL ↔
            ¬ (15.0 ≤ temperature ∧ temperature ≤ 25.0) ∧
            ¬ ((10.0 ≤ temperature ∧ temperature < 15.0) ∨
                (25.0 < temperature ∧ temperature ≤ 30.0)))) ∧
    (Host.analyze_water_quality (6.5 : α) temperature turbidity tds dissolved_oxygen).ph_quality
        = QUALITY_GOOD ∧
    (Host.analyze_water_quality (8.5 : α) temperature turbidity tds dissolved_oxygen).ph_quality
        = QUALITY_GOOD ∧
    (Host.analyze_water_quality ph (15.0 : α) turbidity tds dissolved_oxygen).temp_quality
        = QUALITY_GOOD ∧
    (Host.analyze_water_quality ph (25.0 : α) turbidity tds dissolved_oxygen).temp_quality
        = QUALITY_GOOD := by
  have hp := fun v : α => band_levels v 6.0 6.5 8.5 9.0 (by norm_num) (by norm_num)
    (by norm_num) (Host.analyze_water_quality v temperature turbidity tds dissolved_oxygen).ph_quality
    (Host.ph_quality_eq v temperature turbidity tds dissolved_oxygen)
  have ht := fun v : α => band_levels v 10.0 15.0 25.0 30.0 (by norm_num) (by norm_num)
    (by norm_num) (Host.analyze_water_quality ph v turbidity tds dissolved_oxygen).temp_quality
    (Host.temp_quality_eq ph v turbidity tds dissolved_oxygen)
  refine ⟨hp ph, ht temperature, ?_, ?_, ?_, ?_⟩
  · exact (hp 6.5).1.2 ⟨le_refl _, by norm_num⟩
  · exact (hp 8.5).1.2 ⟨by norm_num, le_refl _⟩
  · exact (ht 15.0).1.2 ⟨le_refl _, by norm_num⟩
  · exact (ht 25.0).1.2 ⟨by norm_num, le_refl _⟩

/-- C2. One-sided, higher-is-worse parameters of `analyze_water_quality`: the
turbidity level is Good iff `turbidity ≤ 5.0`, Alert iff `5.0 < turbidity ≤ 10.0`,
Critical iff `turbidity > 10.0`; the TDS level likewise with thresholds 300.0 and
500.0; turbidity 5.0 is Good and turbidity 10.01 is Critical. -/
theorem c2_upper_classification (ph temperature turbidity tds dissolved_oxygen : α) :
    (((Host.analyze_water_quality ph temperature turbidity tds dissolved_oxygen).turbidity_quality
          = QUALITY_GOOD ↔ turbidity ≤ 5.0) ∧
      ((Host.analyze_water_quality ph temperature turbidity tds dissolved_oxygen).turbidity_quality
          = QUALITY_ALERT ↔ 5.0 < turbidity ∧ turbidity ≤ 10.0) ∧
      ((Host.analyze_water_quality ph temperature turbidity tds dissolved_oxygen).turbidity_quality
          = QUALITY_CRITICAL ↔ turbidity > 10.0)) ∧
    (((Host.analyze_water_quality ph temperature turbidity tds dissolved_oxygen).tds_quality
          = QUALITY_GOOD ↔ tds ≤ 300.0) ∧
      ((Host.analyze_water_quality ph temperature turbidity tds dissolved_oxygen).tds_quality
          = QUALITY_ALERT ↔ 300.0 < tds ∧ tds ≤ 500.0) ∧
      ((Host.analyze_water_quality ph temperature turbidity tds dissolved_oxygen).tds_quality
          = QUALITY_CRITICAL ↔ tds > 500.0)) ∧
    (Host.analyze_water_quality ph temperature (5.0 : α) tds dissolved_oxygen).turbidity_quality
        = QUALITY_GOOD ∧
    (Host.analyze_water_quality ph temperature (10.01 : α) tds dissolved_oxygen).turbidity_quality
        = QUALITY_CRITICAL := by
  have hu := fun v : α => upper_levels v 5.0 10.0 (by norm_num)
    (Host.analyze_water_quality ph temperature v tds dissolved_oxygen).turbidity_quality
    (Host.turbidity_quality_eq ph temperature v tds dissolved_oxygen)
  have hd := upper_levels tds 300.0 500.0 (by norm_num)
    (Host.analyze_water_quality ph temperature turbidity tds dissolved_oxygen).tds_quality
    (Host.tds_quality_eq ph temperature turbidity tds dissolved_oxygen)
  refine ⟨hu turbidity, hd, ?_, ?_⟩
  · exact (hu 5.0).1.2 (le_refl _)
  · exact (hu 10.01).2.2.2 (by norm_num)

/-- C3. Dissolved oxygen in `analyze_water_quality`: the level is Good iff
`dissolved_oxygen ≥ 6.0`, Alert iff `4.0 ≤ dissolved_oxygen < 6.0`, Critical iff
`dissolved_oxygen < 4.0`; 6.0 is Good and 3.99 is Critical. -/
theorem c3_oxygen_classification (ph temperature turbidity tds dissolved_oxygen : α) :
    ((Host.analyze_water_quality ph temperature turbidity tds dissolved_oxygen).do_quality
        = QUALITY_GOOD ↔ dissolved_oxygen ≥ 6.0) ∧
    ((Host.analyze_water_quality ph temperature turbidity tds dissolved_oxygen).do_quality
        = QUALITY_ALERT ↔ 4.0 ≤ dissolved_oxygen ∧ dissolved_oxygen < 6.0) ∧
    ((Host.analyze_water_quality ph temperature turbidity tds dissolved_oxygen).do_quality
        = QUALITY_CRITICAL ↔ dissolved_oxygen < 4.0) ∧
    (Host.analyze_water_quality ph temperature turbidity tds (6.0 : α)).do_quality
        = QUALITY_GOOD ∧
    (Host.analyze_water_quality ph temperature turbidity tds (3.99 : α)).do_quality
        = QUALITY_CRITICAL := by
  have ho := fun v : α => lower_levels v 6.0 4.0 (by norm_num)
    (Host.analyze_water_quality ph temperature turbidity tds v).do_quality
    (Host.do_quality_eq ph temperature turbidity tds v)
  refine ⟨(ho dissolved_oxygen).1, (ho dissolved_oxygen).2.1, (ho dissolved_oxygen).2.2, ?_, ?_⟩
  · exact (ho 6.0).1.2 (le_refl _)
  · exact (ho 3.99).2.2.2 (by norm_num)

end Classification

/-! ## The worst-case reduction -/

theorem Embedded.overall_reduction_eq_host (a b c d e : Int) :
    Embedded.overall_reduction a b c d e = Host.overall_reduction a b c d e := rfl

theorem Host.overall_reduction_eq_max (a b c d e : Int) :
    Host.overall_reduction a b c d e = max (max (max (max a b) c) d) e := by
  unfold Host.overall_reduction
  simp only [gt_iff_lt]
  split_ifs <;> omega

theorem Host.overall_reduction_ge (a b c d e : Int) :
    a ≤ Host.overall_reduction a b c d e ∧ b ≤ Host.overall_reduction a b c d e ∧
    c ≤ Host.overall_reduction a b c d e ∧ d ≤ Host.overall_reduction a b c d e ∧
    e ≤ Host.overall_reduction a b c d e := by
  rw [Host.overall_reduction_eq_max]
  omega

theorem Host.overall_reduction_mem (a b c d e : Int) :
    Host.overall_reduction a b c d e = a ∨ Host.overall_reduction a b c d e = b ∨
    Host.overall_reduction a b c d e = c ∨ Host.overall_reduction a b c d e = d ∨
    Host.overall_reduction a b c d e = e := by
  rw [Host.overall_reduction_eq_max]
  omega

theorem Host.overall_reduction_fin_ge (q : Fin 5 → Int) (i : Fin 5) :
    q i ≤ Host.overall_reduction (q 0) (q 1) (q 2) (q 3) (q 4) := by
  have h := Host.overall_reduction_ge (q 0) (q 1) (q 2) (q 3) (q 4)
  fin_cases i
  · exact h.1
  · exact h.2.1
  · exact h.2.2.1
  · exact h.2.2.2.1
  · exact h.2.2.2.2

theorem Host.overall_reduction_fin_mem (q : Fin 5 → Int) :
    ∃ i : Fin 5, Host.overall_reduction (q 0) (q 1) (q 2) (q 3) (q 4) = q i := by
  rcases Host.overall_reduction_mem (q 0) (q 1) (q 2) (q 3) (q 4) with h | h | h | h | h
  · exact ⟨0, h⟩
  · exact ⟨1, h⟩
  · exact ⟨2, h⟩
  · exact ⟨3, h⟩
  · exact ⟨4, h⟩

theorem Host.overall_reduction_perm (q : Fin 5 → Int) (σ : Equiv.Perm (Fin 5)) :
    Host.overall_reduction (q (σ 0)) (q (σ 1)) (q (σ 2)) (q (σ 3)) (q (σ 4)) =
      Host.overall_reduction (q 0) (q 1) (q 2) (q 3) (q 4) := by
  apply le_antisymm
  · obtain ⟨i, hi⟩ := Host.overall_reduction_fin_mem (fun j => q (σ j))
    rw [hi]
    exact Host.overall_reduction_fin_ge q (σ i)
  · obtain ⟨i, hi⟩ := Host.overall_reduction_fin_mem q
    rw [hi]
    have h := Host.overall_reduction_fin_ge (fun j => q (σ j)) (σ.symm i)
    simpa using h

/-! ## Range of the computed levels -/

section Range
variable {α : Type} [LinearOrderedField α]

theorem Host.levels_range (ph temperature turbidity tds dissolved_oxygen : α) :
    (0 ≤ (Host.analyze_water_quality ph temperature turbidity tds dissolved_oxygen).ph_quality ∧
      (Host.analyze_water_quality ph temperature turbidity tds dissolved_oxygen).ph_quality ≤ 2) ∧
    (0 ≤ (Host.analyze_water_quality ph temperature turbidity tds dissolved_oxygen).temp_quality ∧
      (Host.analyze_water_quality ph temperature turbidity tds dissolved_oxygen).temp_quality ≤ 2) ∧
    (0 ≤ (Host.analyze_water_quality ph temperature turbidity tds
        dissolved_oxygen).turbidity_quality ∧
      (Host.analyze_water_quality ph temperature turbidity tds
        dissolved_oxygen).turbidity_quality ≤ 2) ∧
    (0 ≤ (Host.analyze_water_quality ph temperature turbidity tds dissolved_oxygen).tds_quality ∧
      (Host.analyze_water_quality ph temperature turbidity tds dissolved_oxygen).tds_quality ≤ 2) ∧
    (0 ≤ (Host.analyze_water_quality ph temperature turbidity tds dissolved_oxygen).do_quality ∧
      (Host.analyze_water_quality ph temperature turbidity tds dissolved_oxygen).do_quality ≤ 2) := by
  rw [Host.ph_quality_eq, Host.temp_quality_eq, Host.turbidity_quality_eq, Host.tds_quality_eq,
    Host.do_quality_eq]
  simp only [QUALITY_GOOD, QUALITY_ALERT, QUALITY_CRITICAL]
  refine ⟨?_, ?_, ?_, ?_, ?_⟩ <;> split_ifs <;> omega

theorem Host.overall_range (ph temperature turbidity tds dissolved_oxygen : α) :
    0 ≤ (Host.analyze_water_quality ph temperature turbidity tds dissolved_oxygen).overall_quality ∧
    (Host.analyze_water_quality ph temperature turbidity tds dissolved_oxygen).overall_quality
      ≤ 2 := by
  have hr := Host.levels_range ph temperature turbidity tds dissolved_oxygen
  rw [Host.overall_quality_eq, Host.overall_reduction_eq_max]
  omega

theorem Host.label_ne_unknown (q : Int) (h0 : 0 ≤ q) (h2 : q ≤ 2) :
    Host.get_quality_category q ≠ "Unknown" := by
  have hq : q = 0 ∨ q = 1 ∨ q = 2 := by omega
  rcases hq with h | h | h <;> subst h <;> decide

end Range

/-! ## Overall quality -/

section Overall
variable {α : Type} [LinearOrderedField α]

/-- C4. The overall quality computed by `analyze_water_quality` is the maximum
of the five per-parameter levels: it is at least each of them and equal to one of
them.  Readings (7.0, 20.0, 3.0, 200.0, 8.0) give five Good levels and overall
Good. -/
theorem c4_overall_is_maximum (ph temperature turbidity tds dissolved_oxygen : α) :
    (Host.analyze_water_quality ph temperature turbidity tds dissolved_oxygen).overall_quality =
      max (max (max (max
        (Host.analyze_water_quality ph temperature turbidity tds dissolved_oxygen).ph_quality
        (Host.analyze_water_quality ph temperature turbidity tds dissolved_oxygen).temp_quality)
        (Host.analyze_water_quality ph temperature turbidity tds dissolved_oxygen).turbidity_quality)
        (Host.analyze_water_quality ph temperature turbidity tds dissolved_oxygen).tds_quality)
        (Host.analyze_water_quality ph temperature turbidity tds dissolved_oxygen).do_quality ∧
    ((Host.analyze_water_quality ph temperature turbidity tds dissolved_oxygen).ph_quality ≤
        (Host.analyze_water_quality ph temperature turbidity tds dissolved_oxygen).overall_quality ∧
      (Host.analyze_water_quality ph temperature turbidity tds dissolved_oxygen).temp_quality ≤
        (Host.analyze_water_quality ph temperature turbidity tds dissolved_oxygen).overall_quality ∧
      (Host.analyze_water_quality ph temperature turbidity tds dissolved_oxygen).turbidity_quality ≤
        (Host.analyze_water_quality ph temperature turbidity tds dissolved_oxygen).overall_quality ∧
      (Host.analyze_water_quality ph temperature turbidity tds dissolved_oxygen).tds_quality ≤
        (Host.analyze_water_quality ph temperature turbidity tds dissolved_oxygen).overall_quality ∧
      (Host.analyze_water_quality ph temperature turbidity tds dissolved_oxygen).do_quality ≤
        (Host.analyze_water_quality ph temperature turbidity tds
          dissolved_oxygen).overall_quality) ∧
    ((Host.analyze_water_quality ph temperature turbidity tds dissolved_oxygen).overall_quality =
        (Host.analyze_water_quality ph temperature turbidity tds dissolved_oxygen).ph_quality ∨
      (Host.analyze_water_quality ph temperature turbidity tds dissolved_oxygen).overall_quality =
        (Host.analyze_water_quality ph temperature turbidity tds dissolved_oxygen).temp_quality ∨
      (Host.analyze_water_quality ph temperature turbidity tds dissolved_oxygen).overall_quality =
        (Host.analyze_water_quality ph temperature turbidity tds
          dissolved_oxygen).turbidity_quality ∨
      (Host.analyze_water_quality ph temperature turbidity tds dissolved_oxygen).overall_quality =
        (Host.analyze_water_quality ph temperature turbidity tds dissolved_oxygen).tds_quality ∨
      (Host.analyze_water_quality ph temperature turbidity tds dissolved_oxygen).overall_quality =
        (Host.analyze_water_quality ph temperature turbidity tds dissolved_oxygen).do_quality) ∧
    ((Host.analyze_water_quality (7.0 : α) 20.0 3.0 200.0 8.0).ph_quality = QUALITY_GOOD ∧
      (Host.analyze_water_quality (7.0 : α) 20.0 3.0 200.0 8.0).temp_quality = QUALITY_GOOD ∧
      (Host.analyze_water_quality (7.0 : α) 20.0 3.0 200.0 8.0).turbidity_quality = QUALITY_GOOD ∧
      (Host.analyze_water_quality (7.0 : α) 20.0 3.0 200.0 8.0).tds_quality = QUALITY_GOOD ∧
      (Host.analyze_water_quality (7.0 : α) 20.0 3.0 200.0 8.0).do_quality = QUALITY_GOOD ∧
      (Host.analyze_water_quality (7.0 : α) 20.0 3.0 200.0 8.0).overall_quality = QUALITY_GOOD) := by
  refine ⟨?_, ?_, ?_, ?_⟩
  · rw [Host.overall_quality_eq, Host.overall_reduction_eq_max]
  · rw [Host.overall_quality_eq]
    exact Host.overall_reduction_ge _ _ _ _ _
  · rw [Host.overall_quality_eq]
    exact Host.overall_reduction_mem _ _ _ _ _
  · have h1 : (Host.analyze_water_quality (7.0 : α) 20.0 3.0 200.0 8.0).ph_quality
        = QUALITY_GOOD := by
      rw [Host.ph_quality_eq]; norm_num [PH_GOOD_MIN, PH_GOOD_MAX]
    have h2 : (Host.analyze_water_quality (7.0 : α) 20.0 3.0 200.0 8.0).temp_quality
        = QUALITY_GOOD := by
      rw [Host.temp_quality_eq]; norm_num [TEMP_GOOD_MIN, TEMP_GOOD_MAX]
    have h3 : (Host.analyze_water_quality (7.0 : α) 20.0 3.0 200.0 8.0).turbidity_quality
        = QUALITY_GOOD := by
      rw [Host.turbidity_quality_eq]; norm_num [TURBIDITY_GOOD]
    have h4 : (Host.analyze_water_quality (7.0 : α) 20.0 3.0 200.0 8.0).tds_quality
        = QUALITY_GOOD := by
      rw [Host.tds_quality_eq]; norm_num [TDS_GOOD]
    have h5 : (Host.analyze_water_quality (7.0 : α) 20.0 3.0 200.0 8.0).do_quality
        = QUALITY_GOOD := by
      rw [Host.do_quality_eq]; norm_num [DO_GOOD]
    refine ⟨h1, h2, h3, h4, h5, ?_⟩
    rw [Host.overall_quality_eq, h1, h2, h3, h4, h5]
    rfl

/-- C6. If at least one of the five per-parameter levels computed by
`analyze_water_quality` is Critical, the overall quality is Critical, whatever
the other readings are. -/
theorem c6_critical_dominates (ph temperature turbidity tds dissolved_oxygen : α)
    (h : (Host.analyze_water_quality ph temperature turbidity tds dissolved_oxygen).ph_quality
          = QUALITY_CRITICAL ∨
        (Host.analyze_water_quality ph temperature turbidity tds dissolved_oxygen).temp_quality
          = QUALITY_CRITICAL ∨
        (Host.analyze_water_quality ph temperature turbidity tds dissolved_oxygen).turbidity_quality
          = QUALITY_CRITICAL ∨
        (Host.analyze_water_quality ph temperature turbidity tds dissolved_oxygen).tds_quality
          = QUALITY_CRITICAL ∨
        (Host.analyze_water_quality ph temperature turbidity tds dissolved_oxygen).do_quality
          = QUALITY_CRITICAL) :
    (Host.analyze_water_quality ph temperature turbidity tds dissolved_oxygen).overall_quality
      = QUALITY_CRITICAL := by
  have hr := Host.levels_range ph temperature turbidity tds dissolved_oxygen
  rw [Host.overall_quality_eq, Host.overall_reduction_eq_max]
  simp only [QUALITY_CRITICAL] at h ⊢
  omega

/-- C6, instance: readings (9.5, 20.0, 3.0, 200.0, 8.0) classify pH as Critical
and the overall quality is Critical. -/
theorem c6_critical_dominates_witness :
    (Host.analyze_water_quality (9.5 : ℚ) 20.0 3.0 200.0 8.0).ph_quality = QUALITY_CRITICAL ∧
    (Host.analyze_water_quality (9.5 : ℚ) 20.0 3.0 200.0 8.0).overall_quality
      = QUALITY_CRITICAL :=
  ⟨by rw [Host.ph_quality_eq]; norm_num [PH_GOOD_MIN, PH_GOOD_MAX, PH_ALERT_MIN, PH_ALERT_MAX],
   c6_critical_dominates (9.5 : ℚ) 20.0 3.0 200.0 8.0
     (Or.inl (by
       rw [Host.ph_quality_eq]
       norm_num [PH_GOOD_MIN, PH_GOOD_MAX, PH_ALERT_MIN, PH_ALERT_MAX]))⟩

end Overall

/-! ## Indicator outputs of the embedded variant -/

theorem and_clear_mod (p : Nat) : (p &&& 61951) % 256 = p % 256 := by
  apply Nat.eq_of_testBit_eq
  intro i
  have e : (256 : Nat) = 2 ^ 8 := rfl
  rw [e, Nat.testBit_mod_two_pow, Nat.testBit_mod_two_pow, Nat.testBit_and]
  by_cases h : i < 8
  · have : Nat.testBit 61951 i = true := by interval_cases i <;> rfl
    simp [h, this]
  · simp [h]

theorem or_high_mod (x k : Nat) (hk : 8 ≤ k) : (x ||| 2 ^ k) % 256 = x % 256 := by
  apply Nat.eq_of_testBit_eq
  intro i
  have e : (256 : Nat) = 2 ^ 8 := rfl
  rw [e, Nat.testBit_mod_two_pow, Nat.testBit_mod_two_pow, Nat.testBit_or]
  by_cases h : i < 8
  · have : Nat.testBit (2 ^ k) i = false := Nat.testBit_two_pow_of_ne (by omega)
    simp [h, this]
  · simp [h]

theorem and_high_zero (x k : Nat) (hk : 8 ≤ k) : (x % 256) &&& 2 ^ k = 0 := by
  apply Nat.eq_of_testBit_eq
  intro i
  rw [Nat.testBit_and, Nat.zero_testBit]
  by_cases h : k = i
  · subst h
    have hlt : x % 256 < 2 ^ k :=
      lt_of_lt_of_le (Nat.mod_lt _ (by norm_num)) (by
        calc 256 = 2 ^ 8 := rfl
          _ ≤ 2 ^ k := Nat.pow_le_pow_right (by norm_num) hk)
    simp [Nat.testBit_lt_two_pow hlt]
  · simp [Nat.testBit_two_pow_of_ne h]

theorem Embedded.set_alert_leds_eq_mod (PORTB : Nat) (quality_level : Int) :
    Embedded.set_alert_leds PORTB quality_level = PORTB % 256 := by
  have hm : (2 : Nat) ^ Embedded.INT_BITS - 1 -
      ((1 <<< Embedded.RED_LED_PIN) ||| (1 <<< Embedded.YELLOW_LED_PIN) |||
        (1 <<< Embedded.GREEN_LED_PIN)) = 61951 := by decide
  have hp : (2 : Nat) ^ Embedded.PORT_BITS = 256 := by decide
  have hg : (1 : Nat) <<< Embedded.GREEN_LED_PIN = 2 ^ 11 := by decide
  have hy : (1 : Nat) <<< Embedded.YELLOW_LED_PIN = 2 ^ 10 := by decide
  have hr : (1 : Nat) <<< Embedded.RED_LED_PIN = 2 ^ 9 := by decide
  unfold Embedded.set_alert_leds
  simp only [hm, hp, and_clear_mod]
  split_ifs
  · rw [hg, or_high_mod _ _ (by norm_num), Nat.mod_mod]
  · rw [hy, or_high_mod _ _ (by norm_num), Nat.mod_mod]
  · rw [hr, or_high_mod _ _ (by norm_num), Nat.mod_mod]
  · rfl

/-- C5 (the code misses it). `set_alert_leds` never activates an indicator
output: the masks `1 << 11`, `1 << 10`, `1 << 9` lie outside the 8-bit register
`PORTB`, so after the call the register holds its prior value (modulo `2 ^ 8`)
and each of the green, yellow and red mask bits is clear, for every quality
level; from `PORTB = 0` and level Good the register stays 0. -/
theorem c5_set_alert_leds_drives_no_led (PORTB : Nat) (quality_level : Int) :
    Embedded.set_alert_leds PORTB quality_level = PORTB % 2 ^ Embedded.PORT_BITS ∧
    Embedded.set_alert_leds PORTB quality_level &&& (1 <<< Embedded.GREEN_LED_PIN) = 0 ∧
    Embedded.set_alert_leds PORTB quality_level &&& (1 <<< Embedded.YELLOW_LED_PIN) = 0 ∧
    Embedded.set_alert_leds PORTB quality_level &&& (1 <<< Embedded.RED_LED_PIN) = 0 ∧
    Embedded.set_alert_leds 0 QUALITY_GOOD = 0 ∧
    Embedded.set_alert_leds 0 QUALITY_GOOD &&& (1 <<< Embedded.GREEN_LED_PIN) = 0 := by
  have hg : (1 : Nat) <<< Embedded.GREEN_LED_PIN = 2 ^ 11 := by decide
  have hy : (1 : Nat) <<< Embedded.YELLOW_LED_PIN = 2 ^ 10 := by decide
  have hr : (1 : Nat) <<< Embedded.RED_LED_PIN = 2 ^ 9 := by decide
  have hp : (2 : Nat) ^ Embedded.PORT_BITS = 256 := by decide
  rw [Embedded.set_alert_leds_eq_mod, Embedded.set_alert_leds_eq_mod, hg, hy, hr, hp]
  exact ⟨rfl, and_high_zero _ _ (by norm_num), and_high_zero _ _ (by norm_num),
    and_high_zero _ _ (by norm_num), rfl, rfl⟩

/-! ## Labels -/

/-- C7. `get_quality_category` (host and embedded) maps 0 to "Good", 1 to
"Alert", 2 to "Critical" and exactly the integers below 0 or above 2 to
"Unknown"; the three labels of the defined levels are pairwise distinct and
differ from "Unknown", and each label is returned for its own level only, so the
level is recovered from the label. -/
theorem c7_get_quality_category_labels (quality_level : Int) :
    (Host.get_quality_category 0 = "Good" ∧ Host.get_quality_category 1 = "Alert" ∧
      Host.get_quality_category 2 = "Critical") ∧
    (Host.get_quality_category quality_level = "Unknown" ↔
      quality_level < 0 ∨ 2 < quality_level) ∧
    (Host.get_quality_category 0 ≠ Host.get_quality_category 1 ∧
      Host.get_quality_category 0 ≠ Host.get_quality_category 2 ∧
      Host.get_quality_category 1 ≠ Host.get_quality_category 2 ∧
      Host.get_quality_category 0 ≠ "Unknown" ∧ Host.get_quality_category 1 ≠ "Unknown" ∧
      Host.get_quality_category 2 ≠ "Unknown") ∧
    ((Host.get_quality_category quality_level = "Good" ↔ quality_level = QUALITY_GOOD) ∧
      (Host.get_quality_category quality_level = "Alert" ↔ quality_level = QUALITY_ALERT) ∧
      (Host.get_quality_category quality_level = "Critical" ↔
        quality_level = QUALITY_CRITICAL)) ∧
    Embedded.get_quality_category quality_level = Host.get_quality_category quality_level := by
  refine ⟨by decide, ?_, by decide, ⟨?_, ?_, ?_⟩, rfl⟩
  all_goals
    unfold Host.get_quality_category
    simp only [QUALITY_GOOD, QUALITY_ALERT, QUALITY_CRITICAL]
    split_ifs with h0 h1 h2
    all_goals simp
    all_goals omega

section Invariants
variable {α : Type} [LinearOrderedField α]

/-- C8. For every five readings, each of the five per-parameter levels and the
overall level computed by `analyze_water_quality` is 0, 1 or 2, and none of the
six labels obtained from `get_quality_category` is "Unknown". -/
theorem c8_levels_defined_labels_known (ph temperature turbidity tds dissolved_oxygen : α) :
    ((Host.analyze_water_quality ph temperature turbidity tds dissolved_oxygen).ph_quality
        ∈ [QUALITY_GOOD, QUALITY_ALERT, QUALITY_CRITICAL] ∧
      (Host.analyze_water_quality ph temperature turbidity tds dissolved_oxygen).temp_quality
        ∈ [QUALITY_GOOD, QUALITY_ALERT, QUALITY_CRITICAL] ∧
      (Host.analyze_water_quality ph temperature turbidity tds dissolved_oxygen).turbidity_quality
        ∈ [QUALITY_GOOD, QUALITY_ALERT, QUALITY_CRITICAL] ∧
      (Host.analyze_water_quality ph temperature turbidity tds dissolved_oxygen).tds_quality
        ∈ [QUALITY_GOOD, QUALITY_ALERT, QUALITY_CRITICAL] ∧
      (Host.analyze_water_quality ph temperature turbidity tds dissolved_oxygen).do_quality
        ∈ [QUALITY_GOOD, QUALITY_ALERT, QUALITY_CRITICAL] ∧
      (Host.analyze_water_quality ph temperature turbidity tds dissolved_oxygen).overall_quality
        ∈ [QUALITY_GOOD, QUALITY_ALERT, QUALITY_CRITICAL]) ∧
    (Host.analyze_water_quality ph temperature turbidity tds dissolved_oxygen).labels.length = 6 ∧
    "Unknown" ∉ (Host.analyze_water_quality ph temperature turbidity tds dissolved_oxygen).labels := by
  have hr := Host.levels_range ph temperature turbidity tds dissolved_oxygen
  have ho := Host.overall_range ph temperature turbidity tds dissolved_oxygen
  refine ⟨?_, rfl, ?_⟩
  · simp only [QUALITY_GOOD, QUALITY_ALERT, QUALITY_CRITICAL, List.mem_cons, List.mem_singleton,
      List.not_mem_nil, or_false]
    omega
  · rw [Host.labels_eq]
    simp only [List.mem_cons, List.mem_singleton, List.not_mem_nil, or_false, not_or]
    exact ⟨(Host.label_ne_unknown _ hr.1.1 hr.1.2).symm,
      (Host.label_ne_unknown _ hr.2.1.1 hr.2.1.2).symm,
      (Host.label_ne_unknown _ hr.2.2.1.1 hr.2.2.1.2).symm,
      (Host.label_ne_unknown _ hr.2.2.2.1.1 hr.2.2.2.1.2).symm,
      (Host.label_ne_unknown _ hr.2.2.2.2.1 hr.2.2.2.2.2).symm,
      (Host.label_ne_unknown _ ho.1 ho.2).symm⟩

/-- C9. Monotonicity of the one-sided classifications: for readings `v1 < v2`
the turbidity level of `v1` is at most that of `v2`, the TDS level of `v1` is at
most that of `v2`, and the dissolved-oxygen level of `v1` is at least that of
`v2`, whatever the other readings of the two calls are. -/
theorem c9_one_sided_monotone
    (ph1 temperature1 turbidity1 tds1 dissolved_oxygen1 : α)
    (ph2 temperature2 turbidity2 tds2 dissolved_oxygen2 : α) (v1 v2 : α) (h : v1 < v2) :
    (Host.analyze_water_quality ph1 temperature1 v1 tds1 dissolved_oxygen1).turbidity_quality ≤
      (Host.analyze_water_quality ph2 temperature2 v2 tds2 dissolved_oxygen2).turbidity_quality ∧
    (Host.analyze_water_quality ph1 temperature1 turbidity1 v1 dissolved_oxygen1).tds_quality ≤
      (Host.analyze_water_quality ph2 temperature2 turbidity2 v2 dissolved_oxygen2).tds_quality ∧
    (Host.analyze_water_quality ph1 temperature1 turbidity1 tds1 v1).do_quality ≥
      (Host.analyze_water_quality ph2 temperature2 turbidity2 tds2 v2).do_quality := by
  simp only [Host.turbidity_quality_eq, Host.tds_quality_eq, Host.do_quality_eq, QUALITY_GOOD,
    QUALITY_ALERT, QUALITY_CRITICAL, TURBIDITY_GOOD, TURBIDITY_ALERT, TDS_GOOD, TDS_ALERT,
    DO_GOOD, DO_ALERT, ge_iff_le]
  refine ⟨?_, ?_, ?_⟩
  all_goals
    split_ifs
    all_goals first
      | decide
      | (exfalso; linarith)

/-- C9, instance: readings 5 and 501 on the ordered field of rationals. Turbidity
and TDS go from Good to Critical, dissolved oxygen from Alert to Good. -/
theorem c9_one_sided_monotone_witness :
    (5 : ℚ) < 501 ∧
    ((Host.analyze_water_quality (7 : ℚ) 20 5 200 8).turbidity_quality ≤
      (Host.analyze_water_quality (7 : ℚ) 20 501 200 8).turbidity_quality ∧
    (Host.analyze_water_quality (7 : ℚ) 20 3 5 8).tds_quality ≤
      (Host.analyze_water_quality (7 : ℚ) 20 3 501 8).tds_quality ∧
    (Host.analyze_water_quality (7 : ℚ) 20 3 200 5).do_quality ≥
      (Host.analyze_water_quality (7 : ℚ) 20 3 200 501).do_quality) :=
  ⟨by norm_num, c9_one_sided_monotone (7 : ℚ) 20 3 200 8 7 20 3 200 8 5 501 (by norm_num)⟩

end Invariants

/-- C10. The sequential worst-case reduction of `analyze_water_quality` (host
and embedded) is order-independent: for every five levels `q 0 .. q 4` and every
permutation `σ` of the five positions, reducing the permuted levels gives the
same overall level. -/
theorem c10_reduction_order_independent (q : Fin 5 → Int) (σ : Equiv.Perm (Fin 5)) :
    Host.overall_reduction (q (σ 0)) (q (σ 1)) (q (σ 2)) (q (σ 3)) (q (σ 4)) =
      Host.overall_reduction (q 0) (q 1) (q 2) (q 3) (q 4) ∧
    Embedded.overall_reduction (q (σ 0)) (q (σ 1)) (q (σ 2)) (q (σ 3)) (q (σ 4)) =
      Embedded.overall_reduction (q 0) (q 1) (q 2) (q 3) (q 4) := by
  refine ⟨Host.overall_reduction_perm q σ, ?_⟩
  rw [Embedded.overall_reduction_eq_host, Embedded.overall_reduction_eq_host]
  exact Host.overall_reduction_perm q σ

/-! ## Host and embedded variants -/

section Equivalence
variable {α : Type} [LinearOrderedField α]

/-- C11. The host and the embedded `analyze_water_quality` compute the same five
per-parameter levels and the same overall level for every five readings
(whatever the prior value of `PORTB`), hence obtain the same six labels, and the
two `get_quality_category` functions return the same label for every integer. -/
theorem c11_host_embedded_equivalent (PORTB : Nat)
    (ph temperature turbidity tds dissolved_oxygen : α) (quality_level : Int) :
    ((Embedded.analyze_water_quality PORTB ph temperature turbidity tds dissolved_oxygen).ph_quality
        = (Host.analyze_water_quality ph temperature turbidity tds dissolved_oxygen).ph_quality ∧
      (Embedded.analyze_water_quality PORTB ph temperature turbidity tds
          dissolved_oxygen).temp_quality
        = (Host.analyze_water_quality ph temperature turbidity tds dissolved_oxygen).temp_quality ∧
      (Embedded.analyze_water_quality PORTB ph temperature turbidity tds
          dissolved_oxygen).turbidity_quality
        = (Host.analyze_water_quality ph temperature turbidity tds
          dissolved_oxygen).turbidity_quality ∧
      (Embedded.analyze_water_quality PORTB ph temperature turbidity tds
          dissolved_oxygen).tds_quality
        = (Host.analyze_water_quality ph temperature turbidity tds dissolved_oxygen).tds_quality ∧
      (Embedded.analyze_water_quality PORTB ph temperature turbidity tds
          dissolved_oxygen).do_quality
        = (Host.analyze_water_quality ph temperature turbidity tds dissolved_oxygen).do_quality) ∧
    (Embedded.analyze_water_quality PORTB ph temperature turbidity tds
        dissolved_oxygen).overall_quality
      = (Host.analyze_water_quality ph temperature turbidity tds dissolved_oxygen).overall_quality ∧
    (Embedded.analyze_water_quality PORTB ph temperature turbidity tds dissolved_oxygen).labels
      = (Host.analyze_water_quality ph temperature turbidity tds dissolved_oxygen).labels ∧
    Embedded.get_quality_category quality_level = Host.get_quality_category quality_level := by
  have hg : ∀ q : Int, Embedded.get_quality_category q = Host.get_quality_category q := by
    intro q
    unfold Embedded.get_quality_category Host.get_quality_category
    split_ifs <;> rfl
  have hred : ∀ a b c d e : Int,
      Embedded.overall_reduction a b c d e = Host.overall_reduction a b c d e := by
    intro a b c d e
    unfold Embedded.overall_reduction Host.overall_reduction
    rfl
  refine ⟨⟨rfl, rfl, rfl, rfl, rfl⟩, ?_, ?_, hg quality_level⟩
  · exact hred _ _ _ _ _
  · simp only [Embedded.analyze_water_quality, Host.analyze_water_quality, hg, hred]

end Equivalence

/-! ## Rounding to nearest, ties to even -/

theorem round_half_even_intCast (n : Int) : round_half_even (n : ℚ) = n := by
  unfold round_half_even
  simp

theorem round_half_even_floor_le (y : ℚ) : ⌊y⌋ ≤ round_half_even y := by
  unfold round_half_even
  simp only
  split_ifs <;> omega

theorem round_half_even_le_floor_succ (y : ℚ) : round_half_even y ≤ ⌊y⌋ + 1 := by
  unfold round_half_even
  simp only
  split_ifs <;> omega

theorem round_half_even_mono : Monotone round_half_even := by
  intro x y hxy
  have hf : ⌊x⌋ ≤ ⌊y⌋ := Int.floor_mono hxy
  rcases lt_or_eq_of_le hf with hlt | heq
  · calc round_half_even x ≤ ⌊x⌋ + 1 := round_half_even_le_floor_succ x
      _ ≤ ⌊y⌋ := hlt
      _ ≤ round_half_even y := round_half_even_floor_le y
  · unfold round_half_even
    simp only
    rw [heq]
    have hd : x - (⌊y⌋ : ℚ) ≤ y - (⌊y⌋ : ℚ) := by linarith
    split_ifs <;> first | omega | (exfalso; linarith)

theorem round_half_even_eq_of_near (y : ℚ) (n : Int) (h1 : (n : ℚ) - 1 / 2 < y)
    (h2 : y < (n : ℚ) + 1 / 2) : round_half_even y = n := by
  unfold round_half_even
  simp only
  have hfl : ⌊y⌋ = n ∨ ⌊y⌋ = n - 1 := by
    have a : n - 1 ≤ ⌊y⌋ := by
      rw [Int.le_floor]; push_cast; linarith
    have b : ⌊y⌋ < n + 1 := by
      rw [Int.floor_lt]; push_cast; linarith
    omega
  rcases hfl with h | h
  · rw [h]
    have : y - (n : ℚ) < 1 / 2 := by linarith
    rw [if_pos this]
  · rw [h]
    push_cast
    have c1 : ¬ (y - ((n : ℚ) - 1) < 1 / 2) := by linarith
    have c2 : 1 / 2 < y - ((n : ℚ) - 1) := by linarith
    rw [if_neg c1, if_pos c2]
    omega

theorem log_two_eq (x : ℚ) (e : Int) (hx : 0 < x) (h1 : (2 : ℚ) ^ e ≤ x)
    (h2 : x < (2 : ℚ) ^ (e + 1)) : Int.log 2 x = e := by
  have a : e ≤ Int.log 2 x := by
    rw [← Int.zpow_le_iff_le_log (by norm_num) hx]
    simpa using h1
  have b : Int.log 2 x < e + 1 := by
    rw [← Int.lt_zpow_iff_log_lt (by norm_num) hx]
    simpa using h2
  omega

theorem log_two_spec (x : ℚ) (hx : 0 < x) :
    (2 : ℚ) ^ Int.log 2 x ≤ x ∧ x < (2 : ℚ) ^ (Int.log 2 x + 1) := by
  constructor
  · have h : ((2 : ℕ) : ℚ) ^ Int.log 2 x ≤ x := Int.zpow_log_le_self (by norm_num) hx
    simpa using h
  · have h : x < ((2 : ℕ) : ℚ) ^ (Int.log 2 x + 1) := Int.lt_zpow_succ_log_self (by norm_num) x
    simpa using h

theorem round_nearest_even_zero (p : Nat) : round_nearest_even p 0 = 0 := by
  unfold round_nearest_even
  simp

theorem round_nearest_even_of_pos (p : Nat) (x : ℚ) (hx : 0 < x) :
    round_nearest_even p x =
      (round_half_even (x / 2 ^ (Int.log 2 x - ((p : Int) - 1))) : ℚ) *
        2 ^ (Int.log 2 x - ((p : Int) - 1)) := by
  unfold round_nearest_even
  simp only [if_neg hx.ne', if_neg (not_lt.mpr hx.le), abs_of_pos hx]

theorem round_nearest_even_neg (p : Nat) (x : ℚ) :
    round_nearest_even p (-x) = -round_nearest_even p x := by
  rcases lt_trichotomy x 0 with h | h | h
  · have h' : 0 < -x := by linarith
    unfold round_nearest_even
    simp only [if_neg h.ne, if_neg h'.ne', if_pos h, if_neg (not_lt.mpr h'.le), abs_neg, neg_neg]
  · subst h
    simp [round_nearest_even_zero]
  · have h' : -x < 0 := by linarith
    unfold round_nearest_even
    simp only [if_neg h.ne', if_neg h'.ne, if_pos h', if_neg (not_lt.mpr h.le), abs_neg]

theorem round_nearest_even_eq (p : Nat) (x : ℚ) (e : Int) (hx : 0 < x) (h1 : (2 : ℚ) ^ e ≤ x)
    (h2 : x < (2 : ℚ) ^ (e + 1)) :
    round_nearest_even p x =
      (round_half_even (x / 2 ^ (e - ((p : Int) - 1))) : ℚ) * 2 ^ (e - ((p : Int) - 1)) := by
  rw [round_nearest_even_of_pos p x hx, log_two_eq x e hx h1 h2]

theorem round_nearest_even_binade (p : Nat) (hp : 1 ≤ p) (x : ℚ) (e : Int) (hx : 0 < x)
    (h1 : (2 : ℚ) ^ e ≤ x) (h2 : x < (2 : ℚ) ^ (e + 1)) :
    (2 : ℚ) ^ e ≤ round_nearest_even p x ∧ round_nearest_even p x ≤ (2 : ℚ) ^ (e + 1) := by
  rw [round_nearest_even_eq p x e hx h1 h2]
  obtain ⟨k, hk⟩ : ∃ k : Nat, (p : Int) - 1 = k := ⟨p - 1, by omega⟩
  rw [hk]
  have hq : (0 : ℚ) < 2 ^ (e - (k : Int)) := by positivity
  have e1 : (2 : ℚ) ^ e = ((2 ^ k : Int) : ℚ) * 2 ^ (e - (k : Int)) := by
    push_cast
    rw [← zpow_natCast, ← zpow_add₀ (by norm_num)]
    congr 1
    omega
  have e2 : (2 : ℚ) ^ (e + 1) = ((2 ^ (k + 1) : Int) : ℚ) * 2 ^ (e - (k : Int)) := by
    push_cast
    rw [← zpow_natCast, ← zpow_add₀ (by norm_num)]
    congr 1
    push_cast
    omega
  have l1 : ((2 ^ k : Int) : ℚ) ≤ x / 2 ^ (e - (k : Int)) := by
    rw [le_div_iff₀ hq, ← e1]; exact h1
  have l2 : x / 2 ^ (e - (k : Int)) ≤ ((2 ^ (k + 1) : Int) : ℚ) := by
    rw [div_le_iff₀ hq, ← e2]; exact h2.le
  have m1 := round_half_even_mono l1
  have m2 := round_half_even_mono l2
  rw [round_half_even_intCast] at m1 m2
  constructor
  · rw [e1]
    exact mul_le_mul_of_nonneg_right (by exact_mod_cast m1) hq.le
  · rw [e2]
    exact mul_le_mul_of_nonneg_right (by exact_mod_cast m2) hq.le

theorem round_nearest_even_pos (p : Nat) (hp : 1 ≤ p) (x : ℚ) (hx : 0 < x) :
    0 < round_nearest_even p x := by
  have hs := log_two_spec x hx
  have hb := round_nearest_even_binade p hp x _ hx hs.1 hs.2
  have : (0 : ℚ) < 2 ^ Int.log 2 x := by positivity
  linarith

theorem round_nearest_even_mono_pos (p : Nat) (hp : 1 ≤ p) (x y : ℚ) (hx : 0 < x)
    (hxy : x ≤ y) : round_nearest_even p x ≤ round_nearest_even p y := by
  have hy : 0 < y := lt_of_lt_of_le hx hxy
  have sx := log_two_spec x hx
  have sy := log_two_spec y hy
  have hl : Int.log 2 x ≤ Int.log 2 y := Int.log_mono_right hx hxy
  rcases lt_or_eq_of_le hl with hlt | heq
  · have bx := round_nearest_even_binade p hp x _ hx sx.1 sx.2
    have bY := round_nearest_even_binade p hp y _ hy sy.1 sy.2
    have : (2 : ℚ) ^ (Int.log 2 x + 1) ≤ 2 ^ Int.log 2 y :=
      zpow_le_zpow_right₀ (by norm_num) (by omega)
    linarith
  · rw [round_nearest_even_of_pos p x hx, round_nearest_even_of_pos p y hy, heq]
    have hq : (0 : ℚ) < 2 ^ (Int.log 2 y - ((p : Int) - 1)) := by positivity
    have hd : x / 2 ^ (Int.log 2 y - ((p : Int) - 1)) ≤
        y / 2 ^ (Int.log 2 y - ((p : Int) - 1)) :=
      div_le_div_of_nonneg_right hxy hq.le
    have := round_half_even_mono hd
    exact mul_le_mul_of_nonneg_right (by exact_mod_cast this) hq.le

theorem round_nearest_even_mono (p : Nat) (hp : 1 ≤ p) : Monotone (round_nearest_even p) := by
  intro x y hxy
  rcases lt_trichotomy x 0 with hx | hx | hx
  · rcases lt_trichotomy y 0 with hy | hy | hy
    · have h := round_nearest_even_mono_pos p hp (-y) (-x) (by linarith) (by linarith)
      rw [round_nearest_even_neg, round_nearest_even_neg] at h
      linarith
    · subst hy
      have h := round_nearest_even_pos p hp (-x) (by linarith)
      rw [round_nearest_even_neg] at h
      rw [round_nearest_even_zero]
      linarith
    · have h := round_nearest_even_pos p hp (-x) (by linarith)
      rw [round_nearest_even_neg] at h
      have h2 := round_nearest_even_pos p hp y hy
      linarith
  · subst hx
    rw [round_nearest_even_zero]
    rcases eq_or_lt_of_le hxy with h | h
    · rw [← h, round_nearest_even_zero]
    · exact (round_nearest_even_pos p hp y h).le
  · exact round_nearest_even_mono_pos p hp x y hx hxy

theorem round_nearest_even_dyadic (p : Nat) (m : Nat) (k : Int) (hm : m < 2 ^ p) :
    round_nearest_even p ((m : ℚ) * 2 ^ k) = (m : ℚ) * 2 ^ k := by
  rcases Nat.eq_zero_or_pos m with h0 | hpos
  · subst h0
    simp [round_nearest_even_zero]
  have hmq : (0 : ℚ) < (m : ℚ) := by exact_mod_cast hpos
  have hk : (0 : ℚ) < 2 ^ k := by positivity
  have hx : (0 : ℚ) < (m : ℚ) * 2 ^ k := mul_pos hmq hk
  have j1 : 2 ^ Nat.log 2 m ≤ m := Nat.pow_log_le_self 2 hpos.ne'
  have j2 : m < 2 ^ (Nat.log 2 m + 1) := Nat.lt_pow_succ_log_self (by norm_num) m
  have j3 : Nat.log 2 m < p := by
    have : 2 ^ Nat.log 2 m < 2 ^ p := lt_of_le_of_lt j1 hm
    exact (Nat.pow_lt_pow_iff_right (by norm_num)).mp this
  obtain ⟨d, hd⟩ : ∃ d : Nat, p = Nat.log 2 m + 1 + d := ⟨p - (Nat.log 2 m + 1), by omega⟩
  have h1 : (2 : ℚ) ^ ((Nat.log 2 m : Int) + k) ≤ (m : ℚ) * 2 ^ k := by
    rw [zpow_add₀ (by norm_num), zpow_natCast]
    exact mul_le_mul_of_nonneg_right (by exact_mod_cast j1) hk.le
  have h2 : (m : ℚ) * 2 ^ k < (2 : ℚ) ^ ((Nat.log 2 m : Int) + k + 1) := by
    have e : ((Nat.log 2 m : Int) + k + 1) = ((Nat.log 2 m + 1 : Nat) : Int) + k := by
      push_cast; ring
    rw [e, zpow_add₀ (by norm_num), zpow_natCast]
    exact mul_lt_mul_of_pos_right (by exact_mod_cast j2) hk
  rw [round_nearest_even_eq p _ _ hx h1 h2]
  have hq : ((Nat.log 2 m : Int) + k - ((p : Int) - 1)) = k - (d : Int) := by
    rw [hd]; push_cast; ring
  rw [hq]
  have hdiv : (m : ℚ) * 2 ^ k / 2 ^ (k - (d : Int)) = ((m * 2 ^ d : Nat) : Int) := by
    rw [zpow_sub₀ (by norm_num), zpow_natCast]
    field_simp
    ring
  rw [hdiv, round_half_even_intCast]
  rw [zpow_sub₀ (by norm_num), zpow_natCast]
  push_cast
  field_simp
  ring

theorem round_nearest_even_natCast (p : Nat) (m : Nat) (hm : m < 2 ^ p) :
    round_nearest_even p (m : ℚ) = m := by
  have h := round_nearest_even_dyadic p m 0 hm
  simpa using h

theorem to_float_mono : Monotone to_float := round_nearest_even_mono 24 (by norm_num)

theorem to_double_mono : Monotone to_double := round_nearest_even_mono 53 (by norm_num)

theorem to_float_small (m : Nat) (hm : m ≤ 25) :
    to_float (m : ℚ) = m ∧ to_float (-(m : ℚ)) = -(m : ℚ) := by
  have h : to_float (m : ℚ) = m :=
    round_nearest_even_natCast 24 m (lt_of_le_of_lt hm (by norm_num))
  refine ⟨h, ?_⟩
  unfold to_float at h ⊢
  rw [round_nearest_even_neg, h]

theorem to_double_small (m : Nat) (hm : m ≤ 25) :
    to_double (m : ℚ) = m ∧ to_double (-(m : ℚ)) = -(m : ℚ) := by
  have h : to_double (m : ℚ) = m :=
    round_nearest_even_natCast 53 m (lt_of_le_of_lt hm (by norm_num))
  refine ⟨h, ?_⟩
  unfold to_double at h ⊢
  rw [round_nearest_even_neg, h]

/-! ## Simulated temperature readings -/

theorem Host.temp_good_of_bounds {α : Type} [LinearOrderedField α]
    (ph temperature turbidity tds dissolved_oxygen : α)
    (hlo : 15 ≤ temperature) (hhi : temperature ≤ 25) :
    (Host.analyze_water_quality ph temperature turbidity tds dissolved_oxygen).temp_quality
      = QUALITY_GOOD := by
  rw [Host.temp_quality_eq]
  have h : temperature ≥ TEMP_GOOD_MIN ∧ temperature ≤ TEMP_GOOD_MAX := by
    constructor
    · simp only [TEMP_GOOD_MIN, ge_iff_le]; norm_num; exact hlo
    · simp only [TEMP_GOOD_MAX]; norm_num; exact hhi
  rw [if_pos h]

theorem Host.read_temperature_sensor_eq (rand RAND_MAX : Int) :
    Host.read_temperature_sensor rand RAND_MAX =
      to_float (20 + to_float (to_double (to_double (to_double
        (to_float (to_float (rand : ℚ) / to_float (RAND_MAX : ℚ)) * 2) - 1) * 5))) := by
  have f20 : to_float (20 : ℚ) = 20 := by simpa using (to_float_small 20 (by norm_num)).1
  have e1 : (1.0 : ℚ) = 1 := by norm_num
  have e2 : (2.0 : ℚ) = 2 := by norm_num
  have e5 : (5.0 : ℚ) = 5 := by norm_num
  have e20 : (20.0 : ℚ) = 20 := by norm_num
  unfold Host.read_temperature_sensor
  simp only [e1, e2, e5, e20, f20]

theorem Host.read_temperature_sensor_bounds (rand RAND_MAX : Int) (hpos : 0 < RAND_MAX)
    (h0 : 0 ≤ rand) (h1 : rand ≤ RAND_MAX) :
    15 ≤ Host.read_temperature_sensor rand RAND_MAX ∧
      Host.read_temperature_sensor rand RAND_MAX ≤ 25 := by
  have f0 : to_float (0 : ℚ) = 0 := by simpa using (to_float_small 0 (by norm_num)).1
  have f1 : to_float (1 : ℚ) = 1 := by simpa using (to_float_small 1 (by norm_num)).1
  have f5 : to_float (5 : ℚ) = 5 := by simpa using (to_float_small 5 (by norm_num)).1
  have fm5 : to_float (-5 : ℚ) = -5 := by simpa using (to_float_small 5 (by norm_num)).2
  have f15 : to_float (15 : ℚ) = 15 := by simpa using (to_float_small 15 (by norm_num)).1
  have f25 : to_float (25 : ℚ) = 25 := by simpa using (to_float_small 25 (by norm_num)).1
  have d0 : to_double (0 : ℚ) = 0 := by simpa using (to_double_small 0 (by norm_num)).1
  have d1 : to_double (1 : ℚ) = 1 := by simpa using (to_double_small 1 (by norm_num)).1
  have d2 : to_double (2 : ℚ) = 2 := by simpa using (to_double_small 2 (by norm_num)).1
  have dm1 : to_double (-1 : ℚ) = -1 := by simpa using (to_double_small 1 (by norm_num)).2
  have d5 : to_double (5 : ℚ) = 5 := by simpa using (to_double_small 5 (by norm_num)).1
  have dm5 : to_double (-5 : ℚ) = -5 := by simpa using (to_double_small 5 (by norm_num)).2
  -- the converted operands
  have hr0 : (0 : ℚ) ≤ to_float (rand : ℚ) := by
    have := to_float_mono (show (0 : ℚ) ≤ (rand : ℚ) by exact_mod_cast h0)
    rwa [f0] at this
  have hr1 : to_float (rand : ℚ) ≤ to_float (RAND_MAX : ℚ) :=
    to_float_mono (show (rand : ℚ) ≤ (RAND_MAX : ℚ) by exact_mod_cast h1)
  have hR : (0 : ℚ) < to_float (RAND_MAX : ℚ) := by
    have := to_float_mono (show (1 : ℚ) ≤ (RAND_MAX : ℚ) by exact_mod_cast hpos)
    rw [f1] at this
    linarith
  -- the ratio
  have hq0 : (0 : ℚ) ≤ to_float (to_float (rand : ℚ) / to_float (RAND_MAX : ℚ)) := by
    have := to_float_mono (div_nonneg hr0 hR.le)
    rwa [f0] at this
  have hq1 : to_float (to_float (rand : ℚ) / to_float (RAND_MAX : ℚ)) ≤ 1 := by
    have := to_float_mono ((div_le_one hR).mpr hr1)
    rwa [f1] at this
  -- the three double operations
  have ha0 : (0 : ℚ) ≤
      to_double (to_float (to_float (rand : ℚ) / to_float (RAND_MAX : ℚ)) * 2) := by
    have := to_double_mono (show (0 : ℚ) ≤
      to_float (to_float (rand : ℚ) / to_float (RAND_MAX : ℚ)) * 2 by linarith)
    rwa [d0] at this
  have ha1 : to_double (to_float (to_float (rand : ℚ) / to_float (RAND_MAX : ℚ)) * 2) ≤ 2 := by
    have := to_double_mono (show
      to_float (to_float (rand : ℚ) / to_float (RAND_MAX : ℚ)) * 2 ≤ (2 : ℚ) by linarith)
    rwa [d2] at this
  have hb0 : (-1 : ℚ) ≤ to_double
      (to_double (to_float (to_float (rand : ℚ) / to_float (RAND_MAX : ℚ)) * 2) - 1) := by
    have := to_double_mono (show (-1 : ℚ) ≤
      to_double (to_float (to_float (rand : ℚ) / to_float (RAND_MAX : ℚ)) * 2) - 1 by linarith)
    rwa [dm1] at this
  have hb1 : to_double
      (to_double (to_float (to_float (rand : ℚ) / to_float (RAND_MAX : ℚ)) * 2) - 1) ≤ 1 := by
    have := to_double_mono (show
      to_double (to_float (to_float (rand : ℚ) / to_float (RAND_MAX : ℚ)) * 2) - 1 ≤ (1 : ℚ) by
        linarith)
    rwa [d1] at this
  have hc0 : (-5 : ℚ) ≤ to_double (to_double
      (to_double (to_float (to_float (rand : ℚ) / to_float (RAND_MAX : ℚ)) * 2) - 1) * 5) := by
    have := to_double_mono (show (-5 : ℚ) ≤ to_double
      (to_double (to_float (to_float (rand : ℚ) / to_float (RAND_MAX : ℚ)) * 2) - 1) * 5 by
        linarith)
    rwa [dm5] at this
  have hc1 : to_double (to_double
      (to_double (to_float (to_float (rand : ℚ) / to_float (RAND_MAX : ℚ)) * 2) - 1) * 5)
        ≤ 5 := by
    have := to_double_mono (show to_double
      (to_double (to_float (to_float (rand : ℚ) / to_float (RAND_MAX : ℚ)) * 2) - 1) * 5
        ≤ (5 : ℚ) by linarith)
    rwa [d5] at this
  -- the store into `variation` and the returned sum
  have hv0 := to_float_mono hc0
  have hv1 := to_float_mono hc1
  rw [fm5] at hv0
  rw [f5] at hv1
  rw [Host.read_temperature_sensor_eq]
  constructor
  · have := to_float_mono (show (15 : ℚ) ≤ 20 + to_float (to_double (to_double
        (to_double (to_float (to_float (rand : ℚ) / to_float (RAND_MAX : ℚ)) * 2) - 1) * 5)) by
      linarith)
    rwa [f15] at this
  · have := to_float_mono (show 20 + to_float (to_double (to_double
        (to_double (to_float (to_float (rand : ℚ) / to_float (RAND_MAX : ℚ)) * 2) - 1) * 5))
          ≤ (25 : ℚ) by
      linarith)
    rwa [f25] at this

theorem Host.read_temperature_sensor_sample :
    Host.read_temperature_sensor 16383 32767 = 655355 / 32768 := by
  have a1 : to_float (16383 : ℚ) = 16383 := by
    have h := round_nearest_even_natCast 24 16383 (by norm_num)
    simpa [to_float] using h
  have a2 : to_float (32767 : ℚ) = 32767 := by
    have h := round_nearest_even_natCast 24 32767 (by norm_num)
    simpa [to_float] using h
  have a3 : to_float ((16383 : ℚ) / 32767) = 32767 / 65536 := by
    unfold to_float
    rw [round_nearest_even_eq 24 _ (-2) (by norm_num) (by norm_num) (by norm_num)]
    rw [round_half_even_eq_of_near _ 16776704 (by norm_num) (by norm_num)]
    norm_num
  have a4 : to_double ((32767 : ℚ) / 65536 * 2) = 32767 / 32768 := by
    have h := round_nearest_even_dyadic 53 32767 (-15) (by norm_num)
    unfold to_double
    norm_num at h ⊢
    exact h
  have a5 : to_double ((32767 : ℚ) / 32768 - 1) = -(1 / 32768) := by
    have h := round_nearest_even_dyadic 53 1 (-15) (by norm_num)
    have e : (32767 : ℚ) / 32768 - 1 = -(1 / 32768) := by norm_num
    unfold to_double
    rw [e, round_nearest_even_neg]
    norm_num at h ⊢
    exact h
  have a6 : to_double (-((1 : ℚ) / 32768) * 5) = -(5 / 32768) := by
    have h := round_nearest_even_dyadic 53 5 (-15) (by norm_num)
    have e : -((1 : ℚ) / 32768) * 5 = -(5 / 32768) := by norm_num
    unfold to_double
    rw [e, round_nearest_even_neg]
    norm_num at h ⊢
    exact h
  have a7 : to_float (-((5 : ℚ) / 32768)) = -(5 / 32768) := by
    have h := round_nearest_even_dyadic 24 5 (-15) (by norm_num)
    unfold to_float
    rw [round_nearest_even_neg]
    norm_num at h ⊢
    exact h
  have a8 : to_float (20 + -((5 : ℚ) / 32768)) = 655355 / 32768 := by
    have h := round_nearest_even_dyadic 24 655355 (-15) (by norm_num)
    have e : 20 + -((5 : ℚ) / 32768) = 655355 / 32768 := by norm_num
    unfold to_float
    rw [e]
    norm_num at h ⊢
    exact h
  rw [Host.read_temperature_sensor_eq]
  have c1 : ((16383 : Int) : ℚ) = 16383 := by norm_num
  have c2 : ((32767 : Int) : ℚ) = 32767 := by norm_num
  rw [c1, c2, a1, a2, a3, a4, a5, a6, a7, a8]

theorem Host.read_temperature_sensor_sample_half :
    Host.read_temperature_sensor 1073741823 2147483647 = 20 := by
  have a1 : to_float (1073741823 : ℚ) = 1073741824 := by
    unfold to_float
    rw [round_nearest_even_eq 24 _ 29 (by norm_num) (by norm_num) (by norm_num)]
    rw [round_half_even_eq_of_near _ 16777216 (by norm_num) (by norm_num)]
    norm_num
  have a2 : to_float (2147483647 : ℚ) = 2147483648 := by
    unfold to_float
    rw [round_nearest_even_eq 24 _ 30 (by norm_num) (by norm_num) (by norm_num)]
    rw [round_half_even_eq_of_near _ 16777216 (by norm_num) (by norm_num)]
    norm_num
  have a3 : to_float ((1073741824 : ℚ) / 2147483648) = 1 / 2 := by
    have h := round_nearest_even_dyadic 24 1 (-1) (by norm_num)
    unfold to_float
    norm_num at h ⊢
    exact h
  have a4 : to_double ((1 : ℚ) / 2 * 2) = 1 := by
    have h := (to_double_small 1 (by norm_num)).1
    norm_num at h ⊢
    exact h
  have a5 : to_double ((1 : ℚ) - 1) = 0 := by
    have h := (to_double_small 0 (by norm_num)).1
    norm_num at h ⊢
    exact h
  have a6 : to_double ((0 : ℚ) * 5) = 0 := by
    have h := (to_double_small 0 (by norm_num)).1
    norm_num at h ⊢
    exact h
  have a7 : to_float (0 : ℚ) = 0 := by simpa using (to_float_small 0 (by norm_num)).1
  have a8 : to_float ((20 : ℚ) + 0) = 20 := by
    have h := (to_float_small 20 (by norm_num)).1
    norm_num at h ⊢
    exact h
  rw [Host.read_temperature_sensor_eq]
  have c1 : ((1073741823 : Int) : ℚ) = 1073741823 := by norm_num
  have c2 : ((2147483647 : Int) : ℚ) = 2147483647 := by norm_num
  rw [c1, c2, a1, a2, a3, a4, a5, a6, a7, a8]

/-- C12 (as stated, refuted). With `rand() = 16383` and `RAND_MAX = 32767`, an
input inside `0 ≤ rand ≤ RAND_MAX`, `read_temperature_sensor` returns
`655355 / 32768`, which is not `20 + (rand / RAND_MAX * 2 - 1) * 5 = 655335 / 32767`:
the `float` division rounds the ratio to `32767 / 65536`. -/
theorem c12_closed_form_not_returned :
    (0 : Int) ≤ 16383 ∧ (16383 : Int) ≤ 32767 ∧
    Host.read_temperature_sensor 16383 32767 = 655355 / 32768 ∧
    Host.read_temperature_sensor 16383 32767 ≠ 20 + ((16383 : ℚ) / 32767 * 2 - 1) * 5 := by
  refine ⟨by decide, by decide, Host.read_temperature_sensor_sample, ?_⟩
  rw [Host.read_temperature_sensor_sample]
  norm_num

/-- C12 (amended). In the host simulation, for every value `rand` of `rand()`
with `0 ≤ rand ≤ RAND_MAX`, `read_temperature_sensor` returns the value of
`20 + (rand / RAND_MAX * 2 - 1) * 5` as evaluated in `float` and `double`
arithmetic, rounded after every conversion and operation; that value lies in
`[15.0, 25.0]`; hence the temperature level computed by `analyze_water_quality`
on a simulated temperature reading is Good, never Alert or Critical, whatever
the other four readings are. -/
theorem c12_simulated_temperature_in_range (rand RAND_MAX : Int) (hpos : 0 < RAND_MAX)
    (h0 : 0 ≤ rand) (h1 : rand ≤ RAND_MAX) (ph turbidity tds dissolved_oxygen : ℚ) :
    Host.read_temperature_sensor rand RAND_MAX =
      to_float (20 + to_float (to_double (to_double (to_double
        (to_float (to_float (rand : ℚ) / to_float (RAND_MAX : ℚ)) * 2) - 1) * 5))) ∧
    (15.0 ≤ Host.read_temperature_sensor rand RAND_MAX ∧
      Host.read_temperature_sensor rand RAND_MAX ≤ 25.0) ∧
    (Host.analyze_water_quality ph (Host.read_temperature_sensor rand RAND_MAX) turbidity tds
        dissolved_oxygen).temp_quality = QUALITY_GOOD ∧
    (Host.analyze_water_quality ph (Host.read_temperature_sensor rand RAND_MAX) turbidity tds
        dissolved_oxygen).temp_quality ≠ QUALITY_ALERT ∧
    (Host.analyze_water_quality ph (Host.read_temperature_sensor rand RAND_MAX) turbidity tds
        dissolved_oxygen).temp_quality ≠ QUALITY_CRITICAL := by
  have hb := Host.read_temperature_sensor_bounds rand RAND_MAX hpos h0 h1
  have hg := Host.temp_good_of_bounds ph (Host.read_temperature_sensor rand RAND_MAX) turbidity
    tds dissolved_oxygen hb.1 hb.2
  refine ⟨Host.read_temperature_sensor_eq rand RAND_MAX, ⟨?_, ?_⟩, hg, ?_, ?_⟩
  · have e : (15.0 : ℚ) = 15 := by norm_num
    rw [e]
    exact hb.1
  · have e : (25.0 : ℚ) = 25 := by norm_num
    rw [e]
    exact hb.2
  · rw [hg]
    decide
  · rw [hg]
    decide

/-- C12 (amended), instance: `rand() = 16383` with `RAND_MAX = 32767`; the
simulated temperature lies in `[15.0, 25.0]` and is classified Good. -/
theorem c12_simulated_temperature_in_range_witness :
    (0 : Int) < 32767 ∧ (0 : Int) ≤ 16383 ∧ (16383 : Int) ≤ 32767 ∧
    (15.0 ≤ Host.read_temperature_sensor 16383 32767 ∧
      Host.read_temperature_sensor 16383 32767 ≤ 25.0) ∧
    (Host.analyze_water_quality (7 : ℚ) (Host.read_temperature_sensor 16383 32767) 3 200
      8).temp_quality = QUALITY_GOOD :=
  ⟨by decide, by decide, by decide,
    (c12_simulated_temperature_in_range 16383 32767 (by decide) (by decide) (by decide)
      7 3 200 8).2.1,
    (c12_simulated_temperature_in_range 16383 32767 (by decide) (by decide) (by decide)
      7 3 200 8).2.2.1⟩

end WaterQuality
